import Mathlib

/-!
Verification of the DataLeakBot breach-checking core against its
natural-language specification.

The development shallowly embeds the Python services:
  bot/services/leak_checker.py      (breach aggregation)
  bot/services/password_checker.py  (password assessment, k-anonymity lookup)
  bot/services/monitoring_service.py + database/crud.py (monitoring cycle)

External collaborators (the HIBP HTTP API, the pwnedpasswords range API,
the Telegram bot, hashlib, float log2) are modelled as explicit inputs:
a remote call becomes a value or a function parameter describing the
answer the collaborator would give.  Strings are manipulated through
their character lists so that every definition reduces inside the kernel.
-/

namespace DataLeakBot

/-! ### Data model: bot/services/leak_checker.py -/

/-- Embeds the dataclass BreachInfo (leak_checker.py lines 20-33).
The timestamp-free descriptive fields are kept verbatim; logo_path is
carried as plain data like in the source. -/
structure BreachInfo where
  name : String
  title : String
  domain : String := ""
  breach_date : String := ""
  added_date : String := ""
  pwn_count : Nat := 0
  description : String := ""
  data_classes : List String := []
  is_verified : Bool := true
  logo_path : String := ""
  severity : String := "medium"
deriving Repr, DecidableEq

/-- Embeds the dataclass LeakCheckResult (leak_checker.py lines 83-92).
The checked_at wall-clock timestamp is omitted (real time). -/
structure LeakCheckResult where
  query : String
  query_type : String
  total_breaches : Nat := 0
  breaches : List BreachInfo := []
  pastes : Nat := 0
  error : Option String := none
deriving Repr, DecidableEq

/-- Embeds the property LeakCheckResult.is_compromised (lines 94-96):
true exactly when total_breaches is positive. -/
def LeakCheckResult.is_compromised (r : LeakCheckResult) : Bool :=
  r.total_breaches > 0

/-- Answer of one call to the remote breach source, as produced by
LeakCheckerService._check_hibp (lines 321-389): a list of records plus an
optional error string.  A transport failure or a non-200/404 status is an
answer with the error field set, mirroring the except-branches. -/
structure RemoteAnswer where
  breaches : List BreachInfo := []
  error : Option String := none
deriving Repr, DecidableEq

/-- Embeds KNOWN_RUSSIAN_BREACHES (leak_checker.py lines 140-233) as the
ordered association list the Python dict iterates over. -/
def KNOWN_RUSSIAN_BREACHES : List (String × BreachInfo) :=
  [ ("mail.ru",
     { name := "MailRu2014", title := "Mail.ru", domain := "mail.ru",
       breach_date := "2014-09-01", pwn_count := 4660000,
       data_classes := ["Email addresses", "Passwords"],
       description := "Утечка базы данных Mail.ru в 2014 году",
       severity := "high" }),
    ("yandex.ru",
     { name := "Yandex2014", title := "Яндекс", domain := "yandex.ru",
       breach_date := "2014-09-01", pwn_count := 1260000,
       data_classes := ["Email addresses", "Passwords"],
       description := "Утечка аккаунтов Яндекса",
       severity := "high" }),
    ("vk.com",
     { name := "VK2012", title := "ВКонтакте", domain := "vk.com",
       breach_date := "2012-01-01", pwn_count := 93388000,
       data_classes := ["Email addresses", "Passwords", "Phone numbers", "Names"],
       description := "Масштабная утечка VK в 2012 году",
       severity := "critical" }),
    ("rambler.ru",
     { name := "Rambler2012", title := "Rambler", domain := "rambler.ru",
       breach_date := "2012-01-01", pwn_count := 91000000,
       data_classes := ["Email addresses", "Passwords"],
       description := "Утечка Rambler",
       severity := "high" }),
    ("cdek.ru",
     { name := "CDEK2022", title := "СДЭК", domain := "cdek.ru",
       breach_date := "2022-05-01", pwn_count := 19000000,
       data_classes := ["Email addresses", "Phone numbers", "Names", "Physical addresses"],
       description := "Утечка данных клиентов СДЭК",
       severity := "critical" }),
    ("delivery-club.ru",
     { name := "DeliveryClub2022", title := "Delivery Club", domain := "delivery-club.ru",
       breach_date := "2022-06-01", pwn_count := 21000000,
       data_classes := ["Email addresses", "Phone numbers", "Names", "Physical addresses", "Purchases"],
       description := "Утечка Delivery Club",
       severity := "critical" }),
    ("pikabu.ru",
     { name := "Pikabu2022", title := "Pikabu", domain := "pikabu.ru",
       breach_date := "2022-07-01", pwn_count := 7900000,
       data_classes := ["Email addresses", "Passwords", "Usernames"],
       description := "Утечка базы Pikabu",
       severity := "high" }),
    ("geekbrains.ru",
     { name := "GeekBrains2022", title := "GeekBrains", domain := "geekbrains.ru",
       breach_date := "2022-06-01", pwn_count := 6000000,
       data_classes := ["Email addresses", "Phone numbers", "Names", "Passwords"],
       description := "Утечка GeekBrains",
       severity := "high" }) ]

/-- Models Python str.lower for the character ranges the services touch:
ASCII letters and the Cyrillic letters used by the curated tables. -/
def lowerChar (c : Char) : Char :=
  if 'A' ≤ c ∧ c ≤ 'Z' then Char.ofNat (c.toNat + 32)
  else if 'А' ≤ c ∧ c ≤ 'Я' then Char.ofNat (c.toNat + 32)
  else if c = 'Ё' then 'ё'
  else c

/-- Models Python str.upper for ASCII characters (hex digests and range
responses are ASCII). -/
def upperChar (c : Char) : Char :=
  if 'a' ≤ c ∧ c ≤ 'z' then Char.ofNat (c.toNat - 32) else c

/-- Python value.lower() on the character list of a string. -/
def pyLower (l : List Char) : List Char := l.map lowerChar

/-- Python value.upper() on the character list of a string. -/
def pyUpper (l : List Char) : List Char := l.map upperChar

/-- Models the Python expression email.split("@")[-1]: the characters
after the last '@'. -/
def afterLastAt (l : List Char) : List Char :=
  (l.reverse.takeWhile (fun c => c ≠ '@')).reverse

/-- Models Python str.endswith on character lists. -/
def endsWithL (l suf : List Char) : Bool :=
  suf.reverse.isPrefixOf l.reverse

/-- Embeds LeakCheckerService._check_local_breaches (lines 412-449): the
domain part of the lowercased email is compared with each curated domain
by equality or dot-suffix.  The second loop of the source (lines 423-447)
builds a "possible coincidental match" record and then discards it — the
append is commented out — so it contributes nothing and is not modelled. -/
def check_local_breaches (email : String) : List BreachInfo :=
  let email_lower := pyLower email.data
  let domain := if email_lower.contains '@' then afterLastAt email_lower else []
  (KNOWN_RUSSIAN_BREACHES.filter
    (fun bd => domain = bd.1.data ∨ endsWithL domain ('.' :: bd.1.data))).map
    (fun bd => bd.2)

/-- Embeds the severity_order table used by the final sort in check_email
(lines 267-270): dict.get with default 2. -/
def severityRank (s : String) : Nat :=
  if s = "critical" then 0
  else if s = "high" then 1
  else if s = "medium" then 2
  else if s = "low" then 3
  else 2

/-- Ordering used by the sort in check_email: non-decreasing severity rank. -/
def leRank (a b : BreachInfo) : Prop :=
  severityRank a.severity ≤ severityRank b.severity

instance : DecidableRel leRank := fun a b => Nat.decLe _ _

instance : IsTotal BreachInfo leRank := ⟨fun a b => Nat.le_total _ _⟩

instance : IsTrans BreachInfo leRank := ⟨fun a b c hab hbc => Nat.le_trans hab hbc⟩

/-- Models list.sort(key=severity rank) of check_email lines 267-270.
Python list.sort is a stable sort; for the total preorder leRank every
stable sort computes the same list, and insertion sort is stable. -/
def sortBreaches (l : List BreachInfo) : List BreachInfo :=
  l.insertionSort leRank

/-- Embeds LeakCheckerService.check_email (lines 238-272).  The HIBP call
is represented by the answer the API would give (a RemoteAnswer) and the
paste lookup by the count it would return; hasKey models whether
settings.hibp_api_key is configured.  Remote breaches are kept only when
the remote answer carries no error (line 248); local-catalog records whose
name already occurs among the remote ones are skipped (lines 253-257); the
outer result's error field is never assigned in the source, so it is none. -/
def check_email (hasKey : Bool) (remote : RemoteAnswer) (pastes_count : Nat)
    (email : String) : LeakCheckResult :=
  let hibp_breaches :=
    if hasKey ∧ remote.error = none then remote.breaches else []
  let existing_names := hibp_breaches.map (fun b => b.name)
  let locals :=
    (check_local_breaches email).filter
      (fun b => ¬ existing_names.contains b.name)
  let breaches := hibp_breaches ++ locals
  { query := email, query_type := "email",
    total_breaches := breaches.length,
    breaches := sortBreaches breaches,
    pastes := if hasKey then pastes_count else 0,
    error := none }

/-- Embeds the list phone_breaches constructed inside check_phone
(lines 282-294).  The source builds this list and never appends it to the
result — it is dead code there. -/
def phone_breaches : List BreachInfo :=
  [ { name := "PhoneDB_General",
      title := "Агрегированные базы телефонов",
      breach_date := "2023-01-01",
      data_classes := ["Phone numbers", "Names"],
      description := "Телефонные номера часто попадают в агрегированные базы из множества источников",
      severity := "medium" } ]

/-- Embeds LeakCheckerService.check_phone (lines 274-303): only the HIBP
answer (when a key is configured and the answer carries no error) reaches
the result; the constructed phone_breaches list is never appended. -/
def check_phone (hasKey : Bool) (remote : RemoteAnswer) (phone : String) :
    LeakCheckResult :=
  let hibp_breaches :=
    if hasKey ∧ remote.error = none then remote.breaches else []
  { query := phone, query_type := "phone",
    total_breaches := hibp_breaches.length,
    breaches := hibp_breaches,
    pastes := 0,
    error := none }

/-! ### Password checker: bot/services/password_checker.py -/

/-- Embeds the PasswordCheckerService.COMMON_PASSWORDS set
(password_checker.py lines 82-96), kept as the literal collection. -/
def COMMON_PASSWORDS : List String :=
  [ "password", "123456", "12345678", "qwerty", "abc123",
    "monkey", "1234567", "letmein", "trustno1", "dragon",
    "baseball", "iloveyou", "master", "sunshine", "ashley",
    "michael", "shadow", "123123", "654321", "superman",
    "qazwsx", "football", "password1", "password123",
    "000000", "111111", "1234", "12345", "123456789",
    "1234567890", "qwerty123", "1q2w3e4r", "admin", "root",
    "welcome", "access", "login", "passw0rd", "hello",
    "charlie", "donald", "loveme", "starwars", "solo",
    "princess", "hottie", "lovely", "test", "default",
    "пароль", "йцукен", "привет", "любовь", "наташа",
    "максим", "андрей", "гандон", "сергей", "россия" ]

/-- Embeds PasswordCheckerService.KEYBOARD_SEQUENCES (lines 108-112). -/
def KEYBOARD_SEQUENCES : List String :=
  [ "qwerty", "qwertyuiop", "asdfghjkl", "zxcvbnm",
    "1234567890", "qazwsx", "1qaz2wsx",
    "йцукен", "фывапр", "ячсмит" ]

/-- Character class of the special-character regex used in check_password
line 124 and in the entropy alphabet: the literal set of punctuation
characters of the pattern (braces, quote, apostrophe and backslash are
given by code point). -/
def specialChars : List Char :=
  [ '!', '@', '#', '$', '%', '^', '&', '*', '(', ')', '_', '+', '-', '=',
    '[', ']', Char.ofNat 123, Char.ofNat 125, ';', Char.ofNat 39, ':',
    Char.ofNat 34, Char.ofNat 92, '|', ',', '.', '<', '>', '/', '?' ]

/-- Regex class [A-ZА-ЯЁ] of check_password line 120. -/
def isUpperClass (c : Char) : Bool :=
  ('A' ≤ c ∧ c ≤ 'Z') ∨ ('А' ≤ c ∧ c ≤ 'Я') ∨ c = 'Ё'

/-- Regex class [a-zа-яё] of check_password line 121. -/
def isLowerClass (c : Char) : Bool :=
  ('a' ≤ c ∧ c ≤ 'z') ∨ ('а' ≤ c ∧ c ≤ 'я') ∨ c = 'ё'

/-- Regex class \d of check_password line 122, modelled as the decimal
digits 0-9 (the inputs the service meets are not exotic Unicode digits). -/
def isDigitClass (c : Char) : Bool :=
  '0' ≤ c ∧ c ≤ '9'

/-- ASCII lower-case letters, the class [a-z] of the structural patterns. -/
def isAsciiLower (c : Char) : Bool :=
  'a' ≤ c ∧ c ≤ 'z'

/-- Regex [^\x00-\x7F] of check_password line 126: any non-ASCII character. -/
def isNonAscii (c : Char) : Bool :=
  c.toNat > 127

/-- Python substring test needle in hay on character lists. -/
def containsSub (hay needle : List Char) : Bool :=
  hay.tails.any (fun t => needle.isPrefixOf t)

/-- Regex ^[a-z]+\d{1,4}$ of COMMON_PATTERNS (a word followed by up to
four digits).  The two classes are disjoint, so the greedy run split is
exact.  The dollar anchor is modelled as end-of-string. -/
def regexWordDigits (l : List Char) : Bool :=
  let letters := l.takeWhile isAsciiLower
  let rest := l.drop letters.length
  letters.length ≥ 1 ∧ rest.all isDigitClass ∧ 1 ≤ rest.length ∧ rest.length ≤ 4

/-- Regex ^\d{6,}$ of COMMON_PATTERNS. -/
def regexAllDigits (l : List Char) : Bool :=
  l.all isDigitClass ∧ l.length ≥ 6

/-- Regex ^[a-z]{1,3}\d{1,3}[a-z]{1,3}$ of COMMON_PATTERNS: the three
greedy runs are forced because adjacent classes are disjoint. -/
def regexLetterDigitLetter (l : List Char) : Bool :=
  let a := l.takeWhile isAsciiLower
  let rest1 := l.drop a.length
  let b := rest1.takeWhile isDigitClass
  let c := rest1.drop b.length
  (1 ≤ a.length ∧ a.length ≤ 3) ∧ (1 ≤ b.length ∧ b.length ≤ 3) ∧
    (1 ≤ c.length ∧ c.length ≤ 3) ∧ c.all isAsciiLower

/-- Regex ^(.)\1+$ of COMMON_PATTERNS: one character repeated at least
twice (the dot is modelled as any character). -/
def regexRepeatedChar (l : List Char) : Bool :=
  match l with
  | [] => false
  | c :: rest => rest.length ≥ 1 ∧ rest.all (fun d => d = c)

/-- Chunk alternatives of the sequence regex of COMMON_PATTERNS. -/
def digitPairs : List (List Char) :=
  [ ['0','1'], ['1','2'], ['2','3'], ['3','4'], ['4','5'],
    ['5','6'], ['6','7'], ['7','8'], ['8','9'], ['9','0'] ]

/-- Helper of regexDigitPairRun: an exact chunking into two-character
alternatives (all alternatives have length two, so the match is forced). -/
def digitPairRun : List Char → Bool
  | [] => true
  | a :: b :: rest => digitPairs.contains [a, b] ∧ digitPairRun rest
  | _ => false

/-- Regex ^(01|12|23|34|45|56|67|78|89|90)+$ of COMMON_PATTERNS. -/
def regexDigitPairRun (l : List Char) : Bool :=
  ¬ l.isEmpty ∧ digitPairRun l

/-- Regex ^(qwerty|asdfgh|zxcvbn) of COMMON_PATTERNS: re.match only
anchors the start, so this is a prefix test. -/
def regexKeyboardLatin (l : List Char) : Bool :=
  "qwerty".data.isPrefixOf l ∨ "asdfgh".data.isPrefixOf l ∨ "zxcvbn".data.isPrefixOf l

/-- Regex ^(йцукен|фывапр|ячсмит) of COMMON_PATTERNS, a prefix test. -/
def regexKeyboardRu (l : List Char) : Bool :=
  "йцукен".data.isPrefixOf l ∨ "фывапр".data.isPrefixOf l ∨ "ячсмит".data.isPrefixOf l

/-- Embeds PasswordCheckerService._check_common_patterns (lines 196-215):
membership in the common-password set, keyboard-sequence substrings, the
seven curated regexes, then the low-distinct-character test on the
original password. -/
def check_common_patterns (password : List Char) : Bool :=
  let pwd_lower := pyLower password
  COMMON_PASSWORDS.contains (String.mk pwd_lower) ∨
  KEYBOARD_SEQUENCES.any (fun seq => containsSub pwd_lower seq.data) ∨
  regexWordDigits pwd_lower ∨ regexAllDigits pwd_lower ∨
  regexLetterDigitLetter pwd_lower ∨ regexRepeatedChar pwd_lower ∨
  regexDigitPairRun pwd_lower ∨ regexKeyboardLatin pwd_lower ∨
  regexKeyboardRu pwd_lower ∨
  (password.dedup.length ≤ 2 ∧ password.length > 3)

/-- Embeds the dataclass PasswordCheckResult (lines 20-42).  The
crack_time_display field is omitted: it is a pure rendering of the float
entropy (see check_password below) and enters no claim. -/
structure PasswordCheckResult where
  is_compromised : Bool := false
  times_seen : Nat := 0
  score : Int := 0
  strength : String := "unknown"
  entropy_bits : ℚ := 0
  length : Nat := 0
  has_upper : Bool := false
  has_lower : Bool := false
  has_digits : Bool := false
  has_special : Bool := false
  has_unicode : Bool := false
  is_common_pattern : Bool := false
  warnings : List String := []
  suggestions : List String := []
deriving Repr, DecidableEq

/-- Embeds PasswordCheckerService._calculate_score (lines 274-325).  The
uniqueness contribution int(unique_ratio * 15) is modelled as the exact
floor (distinct * 15) / length of the rational ratio; the source computes
it through a float product.  The entropy tier reads the entropy_bits field
like the source does. -/
def calculate_score (password : List Char) (r : PasswordCheckResult) : Int :=
  let length := password.length
  let score : Int :=
    if length ≥ 16 then 30 else if length ≥ 12 then 25
    else if length ≥ 10 then 20 else if length ≥ 8 then 15
    else if length ≥ 6 then 10 else 5
  let char_types : Int :=
    (if r.has_upper then 1 else 0) + (if r.has_lower then 1 else 0) +
    (if r.has_digits then 1 else 0) + (if r.has_special then 1 else 0)
  let score := score + char_types * 7 + (if r.has_unicode then 3 else 0)
  let score := score +
    (if r.entropy_bits ≥ 80 then 25 else if r.entropy_bits ≥ 60 then 20
     else if r.entropy_bits ≥ 40 then 15 else if r.entropy_bits ≥ 25 then 10
     else 5)
  let score := score +
    (if length = 0 then 0 else ((password.dedup.length * 15) / length : Nat))
  let score := score - (if check_common_patterns password then 30 else 0)
  let score := score - (if length < 6 then 20 else 0)
  max 0 (min 100 score)

/-- Embeds PasswordCheckerService._get_strength_level (lines 327-336). -/
def get_strength_level (score : Int) : String :=
  if score < 20 then "terrible"
  else if score < 40 then "weak"
  else if score < 60 then "fair"
  else if score < 80 then "strong"
  else "excellent"

/-- Embeds _fmt_num (lines 444-446): decimal digits grouped by thousands
with spaces. -/
def groupThousands : List Char → List Char
  | a :: b :: c :: d :: rest => a :: b :: c :: ' ' :: groupThousands (d :: rest)
  | l => l

/-- Embeds _fmt_num (lines 444-446). -/
def fmtNum (n : Nat) : String :=
  String.mk ((groupThousands (toString n).data.reverse).reverse)

/-- Embeds PasswordCheckerService._generate_feedback (lines 338-375). -/
def generate_feedback (password : List Char) (r : PasswordCheckResult) :
    List String × List String :=
  let warnings :=
    (if r.length < 8 then ["⚠️ Пароль слишком короткий"] else []) ++
    (if r.is_common_pattern then ["⚠️ Пароль основан на известном шаблоне"] else []) ++
    (if COMMON_PASSWORDS.contains (String.mk (pyLower password)) then
      ["⛔ Входит в топ самых популярных паролей!"] else []) ++
    (if password.dedup.length ≤ 3 then ["⚠️ Слишком мало уникальных символов"] else [])
  let suggestions :=
    (if r.length < 8 then ["Используйте минимум 12 символов"] else []) ++
    (if ¬ r.has_upper then ["Добавьте заглавные буквы (A-Z)"] else []) ++
    (if ¬ r.has_lower then ["Добавьте строчные буквы (a-z)"] else []) ++
    (if ¬ r.has_digits then ["Добавьте цифры (0-9)"] else []) ++
    (if ¬ r.has_special then ["Добавьте спецсимволы (!@#$%^&*)"] else []) ++
    (if r.is_common_pattern then
      ["Не используйте словарные слова и клавиатурные последовательности"] else [])
  let suggestions :=
    if suggestions.isEmpty then ["✅ Пароль выглядит надёжным!"] else suggestions
  (warnings, suggestions)

/-- Answer of one call to the pwnedpasswords range endpoint
(_check_hibp_passwords lines 176-191): either an exception during the
request (exn) or an HTTP status with the parsed suffix/count lines of the
body — the collaborator interface RemoteHashRangeSource.range of the
specification. -/
inductive RangeOutcome where
  | exn : RangeOutcome
  | ok (status : Nat) (lines : List (String × Nat)) : RangeOutcome
deriving Repr, DecidableEq

/-- First five hex characters of the upper-cased digest — the only value
_check_hibp_passwords ever sends to the range source (line 173-178). -/
def hashPfx (sha1hex : String) : String :=
  String.mk ((pyUpper sha1hex.data).take 5)

/-- Remaining thirty-five hex characters, retained locally (line 174). -/
def hashSfx (sha1hex : String) : String :=
  String.mk ((pyUpper sha1hex.data).drop 5)

/-- Local comparison loop of _check_hibp_passwords (lines 185-190): the
first returned (suffix, count) line whose upper-cased suffix equals the
retained digest suffix gives the count; otherwise 0. -/
def rangeLookup (sfx : String) (lines : List (String × Nat)) : Nat :=
  match lines.find? (fun pr => String.mk (pyUpper pr.1.data) = sfx) with
  | some pr => pr.2
  | none => 0

/-- Embeds PasswordCheckerService._check_hibp_passwords (lines 166-194).
hashlib.sha1 is an external library call; the digest is the sha1hex
argument (supplied by check_password from its ambient hash function).
The range source is the function ranges; it is applied only to the
five-character hash head.  Any exception and any non-200 status yield 0,
mirroring the except-branch and the status checks. -/
def check_hibp_passwords (ranges : String → RangeOutcome) (sha1hex : String) : Nat :=
  match ranges (hashPfx sha1hex) with
  | RangeOutcome.exn => 0
  | RangeOutcome.ok status lines =>
    if status = 200 then rangeLookup (hashSfx sha1hex) lines else 0

/-- Embeds check_password lines 152-163: merge the compromise count into
the assessment — set the flags, prepend the critical warning, subtract 40
from the score (floored at 0 by max) and downgrade the tier. -/
def applyCompromise (pwned : Nat) (r : PasswordCheckResult) : PasswordCheckResult :=
  let r1 := { r with is_compromised := pwned > 0, times_seen := pwned }
  if pwned > 0 then
    let score := max 0 (r1.score - 40)
    { r1 with
      warnings := ("⛔ Пароль найден в " ++ fmtNum pwned ++ " утечках!") :: r1.warnings,
      score := score,
      strength := if score < 20 then "terrible" else r1.strength }
  else r1

/-- Embeds steps 1-7 of PasswordCheckerService.check_password (lines
114-149) in source order: composition flags, pattern check, entropy,
score, strength tier, feedback.  entf is _calculate_entropy, whose value
is an IEEE float computed with math.log2; floating point is not embedded,
so every claim is proved for an arbitrary entf. -/
def base_assessment (entf : String → ℚ) (password : String) : PasswordCheckResult :=
  let chars := password.data
  let r0 : PasswordCheckResult :=
    { length := chars.length,
      has_upper := chars.any isUpperClass,
      has_lower := chars.any isLowerClass,
      has_digits := chars.any isDigitClass,
      has_special := chars.any (fun c => specialChars.contains c),
      has_unicode := chars.any isNonAscii,
      is_common_pattern := check_common_patterns chars,
      entropy_bits := entf password }
  let r1 := { r0 with score := calculate_score chars r0 }
  let r2 := { r1 with strength := get_strength_level r1.score }
  let fb := generate_feedback chars r2
  { r2 with warnings := fb.1, suggestions := fb.2 }

/-- Embeds PasswordCheckerService.check_password (lines 114-164): the
pure assessment of base_assessment followed by the HIBP Pwned Passwords
lookup and the compromise merge (step 8, lines 150-163).  The ambient
sha1f models the hashlib.sha1 hexdigest of the password and ranges the
pwnedpasswords range source. -/
def check_password (sha1f : String → String) (entf : String → ℚ)
    (ranges : String → RangeOutcome) (password : String) : PasswordCheckResult :=
  applyCompromise (check_hibp_passwords ranges (sha1f password))
    (base_assessment entf password)

/-! ### Monitoring cycle: bot/services/monitoring_service.py and
database/crud.py -/

/-- Embeds the User columns read by the monitoring cycle (models.py).
is_subscription_active (helpers.py lines 50-56) compares the stored
subscription type and expiry with the wall clock; its outcome for the
cycle under study is modelled as the stored boolean sub_active. -/
structure User where
  id : Nat
  telegram_id : Nat
  sub_active : Bool
deriving Repr, DecidableEq

/-- Embeds the MonitoredEmail row (models.py lines 179-196): watched
identifier with soft-delete flag, last check time and last breach count.
Timestamps are abstract ticks (Nat). -/
structure MonitoredEmail where
  id : Nat
  user_id : Nat
  email : String
  is_active : Bool := true
  last_checked : Option Nat := none
  last_breach_count : Nat := 0
deriving Repr, DecidableEq

/-- Embeds the NotificationLog row (models.py lines 265-278), the
append-only notification dedup log.  sent_at is not read by the gate and
is omitted. -/
structure NotificationLog where
  user_id : Nat
  notification_type : String
  content_hash : String
deriving Repr, DecidableEq

/-- The persisted tables the cycle touches. -/
structure Store where
  users : List User
  monitored : List MonitoredEmail
  notif_log : List NotificationLog
deriving Repr, DecidableEq

/-- One observable side effect of a cycle: a bot.send_message call
(monitoring_service.py line 135) to a chat with a text. -/
inductive Event where
  | sendAttempt (chat_id : Nat) (text : String) : Event
deriving Repr, DecidableEq

/-- Embeds NotificationCRUD.was_sent (crud.py lines 543-555): does a row
with this owner, kind and fingerprint exist. -/
def was_sent (s : Store) (uid : Nat) (ntype : String) (content_hash : String) : Bool :=
  s.notif_log.any (fun l =>
    l.user_id = uid ∧ l.notification_type = ntype ∧ l.content_hash = content_hash)

/-- Embeds NotificationCRUD.log_sent (crud.py lines 557-570): append one
row to the notification log. -/
def log_sent (s : Store) (uid : Nat) (ntype : String) (content_hash : String) : Store :=
  { s with notif_log :=
      s.notif_log ++ [{ user_id := uid, notification_type := ntype,
                        content_hash := content_hash }] }

/-- Embeds MonitorCRUD.update_check_result (crud.py lines 359-374): find
the row by primary key and set last_checked and last_breach_count.  The
primary key is unique in the database, so the update is modelled as a map
touching exactly the rows with that id. -/
def update_check_result (s : Store) (monitor_id : Nat) (breach_count : Nat)
    (now : Nat) : Store :=
  { s with monitored :=
      s.monitored.map (fun m =>
        if m.id = monitor_id then
          { m with last_checked := some now, last_breach_count := breach_count }
        else m) }

/-- Embeds MonitoringService._mask_email (monitoring_service.py lines
221-230).  The source indexes name[0], which presumes a nonempty local
part; the model takes the first character when present. -/
def mask_email (email : String) : String :=
  let l := email.data
  if l.count '@' = 1 then
    let nm := l.takeWhile (fun c => c ≠ '@')
    let dom := (l.dropWhile (fun c => c ≠ '@')).drop 1
    String.mk (nm.take 1) ++ "***" ++
      (if nm.length > 1 then String.mk (nm.drop (nm.length - 1)) else "") ++
      "@" ++ String.mk dom
  else "***"

/-- Embeds the notification text built in _notify_new_breach lines
112-130.  The count difference is the one of the source, evaluated where
the caller guarantees total > old. -/
def breachNotifText (masked : String) (total old : Nat) (names : String) : String :=
  "🚨 <b>НОВАЯ УТЕЧКА ОБНАРУЖЕНА!</b>\n\n📧 Email: <code>" ++ masked ++
  "</code>\n🆕 Новых утечек: " ++ toString (total - old) ++
  "\n📊 Всего утечек: " ++ toString total ++
  "\n\n🔍 Сервисы: " ++ names ++
  "\n\n🛡 <b>Рекомендации:</b>\n1. Срочно смените пароль на этих сервисах\n2. Включите 2FA\n3. Проверьте подозрительную активность\n\nПодробнее: /check"

/-- Embeds the notification fingerprint of _notify_new_breach lines
101-104: sha256 of the string email:total.  The hexdigest is modelled as
the content string itself; the cycle relies only on the digest being a
deterministic, collision-free function of the content, which this
representative provides exactly. -/
def contentFingerprint (email : String) (total : Nat) : String :=
  email ++ ":" ++ toString total

/-- Embeds MonitoringService._notify_new_breach (lines 89-151).  The
Telegram collaborator is the pair hasBot (self.bot is set) and sendOk
(whether bot.send_message succeeds for a chat and text; a False outcome is
the except-branch).  The log row is appended only after a successful
send; a failed send logs nothing; either way exactly one send is
attempted. -/
def notify_new_breach (hasBot : Bool) (sendOk : Nat → String → Bool) (s : Store)
    (user : User) (email : String) (result : LeakCheckResult) (old_count : Nat) :
    Store × List Event :=
  let new_breaches := result.breaches.take (result.total_breaches - old_count)
  let content_hash := contentFingerprint email result.total_breaches
  if was_sent s user.id "new_breach" content_hash then (s, [])
  else
    let breach_names := String.intercalate ", " ((new_breaches.take 3).map (fun b => b.title))
    let text := breachNotifText (mask_email email) result.total_breaches old_count breach_names
    if hasBot then
      if sendOk user.telegram_id text then
        (log_sent s user.id "new_breach" content_hash,
         [Event.sendAttempt user.telegram_id text])
      else (s, [Event.sendAttempt user.telegram_id text])
    else (s, [])

/-- Embeds MonitoringService._check_single (lines 58-87).  upstream is
LeakCheckerService.check_email seen as the result it returns for an email
during this cycle.  The entry argument is the row object the cycle
iterates over; old_count is read from it before the unconditional
persist, then the strict-increase gate decides whether to notify. -/
def check_single (upstream : String → LeakCheckResult) (hasBot : Bool)
    (sendOk : Nat → String → Bool) (now : Nat) (s : Store)
    (entry : MonitoredEmail) : Store × List Event :=
  match s.users.find? (fun u => u.id = entry.user_id) with
  | none => (s, [])
  | some user =>
    if user.sub_active then
      let result := upstream entry.email
      let old_count := entry.last_breach_count
      let new_count := result.total_breaches
      let s1 := update_check_result s entry.id new_count now
      if new_count > old_count then
        notify_new_breach hasBot sendOk s1 user entry.email result old_count
      else (s1, [])
    else (s, [])

/-- Ordering of MonitorCRUD.get_all_active (crud.py lines 333-344):
ascending last_checked with nulls first. -/
def leCheckedB (a b : MonitoredEmail) : Bool :=
  match a.last_checked, b.last_checked with
  | none, _ => true
  | some _, none => false
  | some x, some y => x ≤ y

/-- Propositional form of leCheckedB for the stable sort. -/
def leChecked (a b : MonitoredEmail) : Prop :=
  leCheckedB a b = true

instance : DecidableRel leChecked := fun a b => instDecidableEqBool _ _

/-- Embeds MonitorCRUD.get_all_active (crud.py lines 333-344): the active
rows ordered by last_checked ascending, nulls first (a stable sort models
the database order-by). -/
def get_all_active (monitored : List MonitoredEmail) : List MonitoredEmail :=
  (monitored.filter (fun m => m.is_active)).insertionSort leChecked

/-- Sequential processing of the fetched rows (run_monitoring_cycle lines
46-54): each row is checked against the store left by the previous one and
the emitted events are concatenated.  The fixed inter-item sleep is a
scheduling concern without state and the per-item try/except wraps total
functions here. -/
def runList (upstream : String → LeakCheckResult) (hasBot : Bool)
    (sendOk : Nat → String → Bool) (now : Nat) :
    Store → List MonitoredEmail → Store × List Event
  | s, [] => (s, [])
  | s, e :: rest =>
    let p := check_single upstream hasBot sendOk now s e
    let q := runList upstream hasBot sendOk now p.1 rest
    (q.1, p.2 ++ q.2)

/-- Embeds MonitoringService.run_monitoring_cycle (lines 36-56): fetch the
active rows once, then process them sequentially. -/
def run_cycle (upstream : String → LeakCheckResult) (hasBot : Bool)
    (sendOk : Nat → String → Bool) (now : Nat) (s : Store) : Store × List Event :=
  runList upstream hasBot sendOk now s (get_all_active s.monitored)

/-- Embeds LeakCheckerService._calculate_severity (lines 451-480). -/
def calculate_severity (data_classes : List String) (pwn_count : Nat) : String :=
  let critical_data := ["Credit cards", "Bank account numbers", "Passport numbers",
    "Government issued IDs", "Social security numbers"]
  let high_data := ["Passwords", "Auth tokens", "Security questions and answers"]
  let has_critical := data_classes.any (fun dc => critical_data.contains dc)
  let has_high := data_classes.any (fun dc => high_data.contains dc)
  if has_critical then "critical"
  else if has_high ∧ pwn_count > 1000000 then "critical"
  else if has_high then "high"
  else if pwn_count > 10000000 then "high"
  else if pwn_count > 100000 then "medium"
  else "low"

/-- The columns of a MonitoredEmail row that the cycle never rewrites:
primary key, owner, watched value and the soft-delete flag. -/
def statics (m : MonitoredEmail) : Nat × Nat × String × Bool :=
  (m.id, m.user_id, m.email, m.is_active)

/-- The exact text _notify_new_breach sends for a row and a check result
(lines 98-130): masked email, count delta and the first three titles of
the newly observed slice. -/
def itemNotifText (entry : MonitoredEmail) (result : LeakCheckResult) : String :=
  breachNotifText (mask_email entry.email) result.total_breaches entry.last_breach_count
    (String.intercalate ", "
      (((result.breaches.take (result.total_breaches - entry.last_breach_count)).take 3).map
        (fun b => b.title)))

/-- A small breach record for concrete monitoring scenarios. -/
def demoBreach : BreachInfo :=
  { name := "DemoBreach", title := "Demo", severity := "high" }

/-- A check_email answer reporting n breaches for a scenario. -/
def demoResult (email : String) (n : Nat) : LeakCheckResult :=
  { query := email, query_type := "email", total_breaches := n,
    breaches := List.replicate n demoBreach }

/-- An upstream source whose answer always reports n breaches. -/
def demoUpstream (n : Nat) : String → LeakCheckResult :=
  fun email => demoResult email n

/-- An active subscriber for concrete monitoring scenarios. -/
def demoUser : User := { id := 1, telegram_id := 100, sub_active := true }

/-- A watched identifier of demoUser, last known count 2, never checked. -/
def demoEntry : MonitoredEmail :=
  { id := 1, user_id := 1, email := "a@b.c",
    is_active := true, last_checked := none, last_breach_count := 2 }

/-- One watched identifier owned by an active subscriber, last known
count 2, never checked. -/
def demoStore : Store :=
  { users := [demoUser], monitored := [demoEntry], notif_log := [] }

/-- The store after a first cycle that observed 5 breaches (a
notification for the fingerprint a@b.c:5 is sent and logged). -/
def demoStoreAfter5 : Store :=
  (run_cycle (demoUpstream 5) true (fun _ _ => true) 1 demoStore).1

/-- The store after a second cycle in which the upstream lowered the
count to 3 (no notification; the count 3 is persisted). -/
def demoStoreAfter3 : Store :=
  (run_cycle (demoUpstream 3) true (fun _ _ => true) 2 demoStoreAfter5).1

/-! ### Theorems -/

/-- C1 (counterexample): for user@mail.ru with the remote source
returning no records and no error, check_email does return exactly the
one local-catalog mail.ru record, but that record's severity is "high" —
the claimed severity "critical" is false at this input. -/
theorem check_email_mailru_severity_cex :
    (check_email true {} 0 "user@mail.ru").total_breaches = 1 ∧
    (check_email true {} 0 "user@mail.ru").breaches.map (fun b => b.severity) = ["high"] ∧
    ¬ (check_email true {} 0 "user@mail.ru").breaches.map (fun b => b.severity) = ["critical"] := by
  decide

/-- C1 (amended): for user@mail.ru with the remote source returning no
records and no error, check_email returns exactly the one local-catalog
record for domain mail.ru (pwn_count 4,660,000, data classes Email
addresses and Passwords), total_breaches = 1, and that record's severity
is "high" (the hard-coded severity of the catalog entry). -/
theorem check_email_mailru_catalog :
    (check_email true {} 0 "user@mail.ru").total_breaches = 1 ∧
    (check_email true {} 0 "user@mail.ru").breaches.map
        (fun b => (b.name, b.domain, b.pwn_count, b.data_classes, b.severity)) =
      [("MailRu2014", "mail.ru", 4660000, ["Email addresses", "Passwords"], "high")] ∧
    (check_email true {} 0 "user@mail.ru").error = none := by
  decide

/-- C2 (counterexample): when the remote breach source fails (here: a
transport error answer), check_email returns a result whose error field is
none and which reports zero breaches for an identifier without catalog
matches — the failed check is presented exactly like a clean one, contrary
to the claim that the error field is set. -/
theorem check_email_remote_failure_cex :
    (check_email true { error := some "Connection error" } 0 "user@example.com").error = none ∧
    (check_email true { error := some "Connection error" } 0 "user@example.com").total_breaches = 0 ∧
    (check_email true { error := some "Connection error" } 0 "user@example.com").is_compromised = false := by
  decide

/-- C2 (amended): check_email never raises (it is a total function of the
remote answer) but it also never sets its error field; when the remote
source fails, the inner error is discarded and the result equals the one
for an empty, error-free remote answer — local-catalog records only,
indistinguishable from a clean remote check at the interface. -/
theorem check_email_remote_failure_clean (hasKey : Bool) (remote : RemoteAnswer)
    (pastes_count : Nat) (email err_s : String) (h : remote.error = some err_s) :
    (check_email hasKey remote pastes_count email).error = none ∧
    check_email hasKey remote pastes_count email =
      check_email hasKey {} pastes_count email := by
  refine ⟨rfl, ?_⟩
  simp [check_email, h]

/-- Witness for check_email_remote_failure_clean at a concrete failing
remote answer. -/
theorem check_email_remote_failure_clean_witness :
    ({ error := some "Connection error" } : RemoteAnswer).error = some "Connection error" ∧
    ((check_email true { error := some "Connection error" } 3 "a@b.c").error = none ∧
     check_email true { error := some "Connection error" } 3 "a@b.c" =
       check_email true {} 3 "a@b.c") :=
  ⟨rfl, check_email_remote_failure_clean true { error := some "Connection error" }
    3 "a@b.c" "Connection error" rfl⟩

/-- C9 (counterexample): for a phone query with no source answer,
check_phone reports zero breaches and is_compromised = false, and its
breaches list is empty — it does not contain the constructed
PhoneDB_General record, contrary to the claim. -/
theorem check_phone_no_phonedb_cex :
    (check_phone true {} "+79991234567").total_breaches = 0 ∧
    (check_phone true {} "+79991234567").is_compromised = false ∧
    (check_phone true {} "+79991234567").breaches = [] := by
  decide

/-- C9 (amended): check_phone never adds the hard-coded PhoneDB_General
record: its breaches are exactly the remote records (kept only with a key
and an error-free answer), so whenever the remote answer does not itself
contain that name the result does not either; with no source answer the
result is clean. -/
theorem check_phone_omits_phonedb (hasKey : Bool) (remote : RemoteAnswer)
    (phone : String)
    (h : ∀ b ∈ remote.breaches, b.name ≠ "PhoneDB_General") :
    (check_phone hasKey remote phone).breaches =
      (if hasKey ∧ remote.error = none then remote.breaches else []) ∧
    ¬ "PhoneDB_General" ∈ (check_phone hasKey remote phone).breaches.map
        (fun b => b.name) := by
  refine ⟨rfl, ?_⟩
  simp only [check_phone, List.mem_map]
  rintro ⟨b, hb, hname⟩
  split at hb
  · exact h b hb hname
  · simp at hb

/-- Stability of the severity sort: the records of any fixed severity
rank appear in the sorted list exactly in their pre-sort order. -/
theorem filter_sortBreaches (p : BreachInfo → Bool)
    (hp : ∀ a b, p a = true → p b = true → leRank a b) (l : List BreachInfo) :
    (sortBreaches l).filter p = l.filter p := by
  have hpair : (l.filter p).Pairwise leRank :=
    List.pairwise_of_forall_mem_list (fun a ha b hb =>
      hp a b (List.of_mem_filter ha) (List.of_mem_filter hb))
  have hsub : List.Sublist (l.filter p) (sortBreaches l) :=
    List.sublist_insertionSort hpair (List.filter_sublist l)
  have hperm : List.Perm ((sortBreaches l).filter p) (l.filter p) :=
    (List.perm_insertionSort leRank l).filter p
  have hsub2 : List.Sublist (l.filter p) ((sortBreaches l).filter p) := by
    have h2 := hsub.filter p
    simpa using h2
  exact (hsub2.eq_of_length hperm.length_eq.symm).symm

/-- C5: check_email merges by record name — remote records are kept, a
local-catalog record whose name already occurs remotely is dropped in
favour of the remote version, the remaining local records are appended
after the remote ones — and the returned list is a permutation of that
merge sorted by non-decreasing severity rank (critical 0, high 1, medium
2, low 3) in which records of equal rank keep the merge order. -/
theorem check_email_merge_sorted (hasKey : Bool) (remote : RemoteAnswer)
    (pastes_count : Nat) (email : String) (hkey : hasKey = true)
    (herr : remote.error = none) :
    (check_email hasKey remote pastes_count email).breaches.Perm
      (remote.breaches ++ (check_local_breaches email).filter
        (fun b => ¬ (remote.breaches.map (fun rb => rb.name)).contains b.name)) ∧
    (check_email hasKey remote pastes_count email).breaches.Pairwise leRank ∧
    (∀ rk : Nat,
      (check_email hasKey remote pastes_count email).breaches.filter
          (fun b => severityRank b.severity = rk) =
        (remote.breaches ++ (check_local_breaches email).filter
          (fun b => ¬ (remote.breaches.map (fun rb => rb.name)).contains b.name)).filter
          (fun b => severityRank b.severity = rk)) := by
  subst hkey
  have hb : (check_email true remote pastes_count email).breaches =
      sortBreaches (remote.breaches ++ (check_local_breaches email).filter
        (fun b => ¬ (remote.breaches.map (fun rb => rb.name)).contains b.name)) := by
    simp [check_email, herr]
  refine ⟨?_, ?_, ?_⟩
  · rw [hb]
    exact List.perm_insertionSort leRank _
  · rw [hb]
    exact List.sorted_insertionSort leRank _
  · intro rk
    rw [hb]
    refine filter_sortBreaches _ (fun a b ha hbb => ?_) _
    have ha' := of_decide_eq_true ha
    have hb' := of_decide_eq_true hbb
    show severityRank a.severity ≤ severityRank b.severity
    rw [ha', hb']

/-- Witness for check_email_merge_sorted: a remote answer whose first
record shares the name MailRu2014 with the local catalog (the remote
version, of severity low, wins) plus a fresh critical record, checked for
user@mail.ru. -/
theorem check_email_merge_sorted_witness :
    (check_email true
        { breaches := [{ name := "MailRu2014", title := "Mail.ru remote", severity := "low" },
                       { name := "XBreach", title := "X", severity := "critical" }] }
        0 "user@mail.ru").breaches.Perm
      (({ breaches := [{ name := "MailRu2014", title := "Mail.ru remote", severity := "low" },
                       { name := "XBreach", title := "X", severity := "critical" }] } :
          RemoteAnswer).breaches ++
        (check_local_breaches "user@mail.ru").filter
          (fun b => ¬ ((({ breaches := [{ name := "MailRu2014", title := "Mail.ru remote", severity := "low" },
                       { name := "XBreach", title := "X", severity := "critical" }] } :
              RemoteAnswer).breaches.map (fun rb => rb.name)).contains b.name))) ∧
    (check_email true
        { breaches := [{ name := "MailRu2014", title := "Mail.ru remote", severity := "low" },
                       { name := "XBreach", title := "X", severity := "critical" }] }
        0 "user@mail.ru").breaches.Pairwise leRank :=
  ⟨(check_email_merge_sorted true
      { breaches := [{ name := "MailRu2014", title := "Mail.ru remote", severity := "low" },
                     { name := "XBreach", title := "X", severity := "critical" }] }
      0 "user@mail.ru" rfl rfl).1,
   (check_email_merge_sorted true
      { breaches := [{ name := "MailRu2014", title := "Mail.ru remote", severity := "low" },
                     { name := "XBreach", title := "X", severity := "critical" }] }
      0 "user@mail.ru" rfl rfl).2.1⟩

/-- The score of _calculate_score always lies in the clamp interval. -/
theorem calculate_score_bounds (password : List Char) (r : PasswordCheckResult) :
    0 ≤ calculate_score password r ∧ calculate_score password r ≤ 100 := by
  simp only [calculate_score]
  omega

/-- The compromise merge keeps a score inside [0, 100]. -/
theorem applyCompromise_score_bounds (pwned : Nat) (r : PasswordCheckResult)
    (h0 : 0 ≤ r.score) (h1 : r.score ≤ 100) :
    0 ≤ (applyCompromise pwned r).score ∧ (applyCompromise pwned r).score ≤ 100 := by
  by_cases h : pwned > 0 <;> simp [applyCompromise, h] <;> omega

/-- The compromise merge reports exactly the looked-up count. -/
theorem applyCompromise_times_seen (pwned : Nat) (r : PasswordCheckResult) :
    (applyCompromise pwned r).times_seen = pwned ∧
    (applyCompromise pwned r).is_compromised = decide (pwned > 0) := by
  by_cases h : pwned > 0 <;> simp [applyCompromise, h]

/-- The base assessment's score is the clamped _calculate_score value. -/
theorem base_assessment_score_bounds (entf : String → ℚ) (password : String) :
    0 ≤ (base_assessment entf password).score ∧
    (base_assessment entf password).score ≤ 100 := by
  simp only [base_assessment]
  exact calculate_score_bounds _ _

/-- A failing range answer yields the count 0. -/
theorem check_hibp_passwords_failure (ranges : String → RangeOutcome) (sha1hex : String)
    (h : ranges (hashPfx sha1hex) = RangeOutcome.exn ∨
      ∃ st lines, ranges (hashPfx sha1hex) = RangeOutcome.ok st lines ∧ st ≠ 200) :
    check_hibp_passwords ranges sha1hex = 0 := by
  rcases h with h | ⟨st, lines, h, hst⟩ <;> simp [check_hibp_passwords, h]
  intro h200
  exact absurd h200 hst

/-- C6: for every password, every ambient hash and entropy function and
every fixed answer of the hash-range source, the score of check_password
lies in [0, 100], and the assessment is a deterministic function of those
inputs: the same call yields the same result. -/
theorem check_password_score_in_range (sha1f : String → String) (entf : String → ℚ)
    (ranges : String → RangeOutcome) (password : String) :
    0 ≤ (check_password sha1f entf ranges password).score ∧
    (check_password sha1f entf ranges password).score ≤ 100 ∧
    check_password sha1f entf ranges password =
      check_password sha1f entf ranges password := by
  have hb := base_assessment_score_bounds entf password
  have h := applyCompromise_score_bounds
    (check_hibp_passwords ranges (sha1f password)) (base_assessment entf password)
    hb.1 hb.2
  exact ⟨h.1, h.2, rfl⟩

/-- C7: the compromise lookup sends the range source exactly the five
leading hex characters of the upper-cased digest (the answer depends on
the source only through its value at that five-character key, so the
thirty-five remaining characters are never transmitted); those remaining
characters are compared locally against the returned (suffix, count)
lines, and on a match the reported times_seen is that line's count, with
is_compromised true for a positive count. -/
theorem check_password_k_anonymity (sha1f : String → String) (entf : String → ℚ)
    (ranges : String → RangeOutcome) (password : String)
    (h40 : (sha1f password).length = 40)
    (lines : List (String × Nat)) (s0 : String) (c : Nat)
    (hok : ranges (hashPfx (sha1f password)) = RangeOutcome.ok 200 lines)
    (hfind : lines.find?
        (fun pr => String.mk (pyUpper pr.1.data) = hashSfx (sha1f password)) =
      some (s0, c)) :
    (hashPfx (sha1f password)).length = 5 ∧
    (hashSfx (sha1f password)).length = 35 ∧
    (∀ ranges' : String → RangeOutcome,
      ranges' (hashPfx (sha1f password)) = ranges (hashPfx (sha1f password)) →
      check_password sha1f entf ranges' password =
        check_password sha1f entf ranges password) ∧
    (check_password sha1f entf ranges password).times_seen = c ∧
    (0 < c → (check_password sha1f entf ranges password).is_compromised = true) := by
  have hdata : (sha1f password).data.length = 40 := h40
  have hcount : check_hibp_passwords ranges (sha1f password) = c := by
    simp [check_hibp_passwords, hok, rangeLookup, hfind]
  refine ⟨?_, ?_, ?_, ?_, ?_⟩
  · show (((sha1f password).data.map upperChar).take 5).length = 5
    rw [List.length_take, List.length_map, hdata]
    omega
  · show (((sha1f password).data.map upperChar).drop 5).length = 35
    rw [List.length_drop, List.length_map, hdata]
  · intro ranges' hr
    unfold check_password check_hibp_passwords
    rw [hr]
  · rw [check_password, hcount]
    exact (applyCompromise_times_seen c _).1
  · intro hc
    rw [check_password, hcount]
    rw [(applyCompromise_times_seen c _).2]
    simpa using hc
-- see check_password_k_anonymity_witness below

/-- Witness for check_password_k_anonymity: the classic digest of the
word password, its head 5BAA6 submitted, and a mocked range answer
containing the matching suffix with count 3861493. -/
theorem check_password_k_anonymity_witness :
    ((fun _ : String => "5baa61e4c9b93f3f0682250b6cf8331b7ee68fd8") "password").length = 40 ∧
    hashPfx "5baa61e4c9b93f3f0682250b6cf8331b7ee68fd8" = "5BAA6" ∧
    (check_password (fun _ => "5baa61e4c9b93f3f0682250b6cf8331b7ee68fd8") (fun _ => 0)
        (fun p => if p = "5BAA6" then
          RangeOutcome.ok 200 [("1e4c9b93f3f0682250b6cf8331b7ee68fd8", 3861493)]
          else RangeOutcome.exn)
        "password").times_seen = 3861493 ∧
    (check_password (fun _ => "5baa61e4c9b93f3f0682250b6cf8331b7ee68fd8") (fun _ => 0)
        (fun p => if p = "5BAA6" then
          RangeOutcome.ok 200 [("1e4c9b93f3f0682250b6cf8331b7ee68fd8", 3861493)]
          else RangeOutcome.exn)
        "password").is_compromised = true := by
  have h := check_password_k_anonymity
    (fun _ => "5baa61e4c9b93f3f0682250b6cf8331b7ee68fd8") (fun _ => 0)
    (fun p => if p = "5BAA6" then
      RangeOutcome.ok 200 [("1e4c9b93f3f0682250b6cf8331b7ee68fd8", 3861493)]
      else RangeOutcome.exn)
    "password" (by decide)
    [("1e4c9b93f3f0682250b6cf8331b7ee68fd8", 3861493)]
    "1e4c9b93f3f0682250b6cf8331b7ee68fd8" 3861493 (by decide) (by decide)
  exact ⟨by decide, by decide, h.2.2.2.1, h.2.2.2.2 (by decide)⟩

/-- C10: when the range source is unavailable — an exception or any
non-200 status — the lookup count is 0, so check_password reports
times_seen = 0 and is_compromised = false, and the whole assessment
equals the one obtained from a successful answer with an empty body:
at the interface a lookup failure is indistinguishable from a genuinely
uncompromised password. -/
theorem check_password_range_failure_clean (sha1f : String → String)
    (entf : String → ℚ) (ranges : String → RangeOutcome) (password : String)
    (h : ranges (hashPfx (sha1f password)) = RangeOutcome.exn ∨
      ∃ st lines, ranges (hashPfx (sha1f password)) = RangeOutcome.ok st lines ∧
        st ≠ 200) :
    (check_password sha1f entf ranges password).times_seen = 0 ∧
    (check_password sha1f entf ranges password).is_compromised = false ∧
    check_password sha1f entf ranges password =
      check_password sha1f entf (fun _ => RangeOutcome.ok 200 []) password := by
  have h0 : check_hibp_passwords ranges (sha1f password) = 0 :=
    check_hibp_passwords_failure ranges (sha1f password) h
  have h0' : check_hibp_passwords (fun _ => RangeOutcome.ok 200 [])
      (sha1f password) = 0 := by
    simp [check_hibp_passwords, rangeLookup]
  refine ⟨?_, ?_, ?_⟩
  · rw [check_password, h0]
    exact (applyCompromise_times_seen 0 _).1
  · rw [check_password, h0]
    rw [(applyCompromise_times_seen 0 _).2]
    decide
  · rw [check_password, check_password, h0, h0']

/-- Witness for check_password_range_failure_clean with a range source
that always raises. -/
theorem check_password_range_failure_clean_witness :
    ((fun _ : String => RangeOutcome.exn)
        (hashPfx ((fun _ : String => "5baa61e4c9b93f3f0682250b6cf8331b7ee68fd8") "x")) =
      RangeOutcome.exn ∨
      ∃ st lines, (fun _ : String => RangeOutcome.exn)
          (hashPfx ((fun _ : String => "5baa61e4c9b93f3f0682250b6cf8331b7ee68fd8") "x")) =
        RangeOutcome.ok st lines ∧ st ≠ 200) ∧
    ((check_password (fun _ => "5baa61e4c9b93f3f0682250b6cf8331b7ee68fd8") (fun _ => 0)
        (fun _ => RangeOutcome.exn) "x").times_seen = 0 ∧
     (check_password (fun _ => "5baa61e4c9b93f3f0682250b6cf8331b7ee68fd8") (fun _ => 0)
        (fun _ => RangeOutcome.exn) "x").is_compromised = false ∧
     check_password (fun _ => "5baa61e4c9b93f3f0682250b6cf8331b7ee68fd8") (fun _ => 0)
        (fun _ => RangeOutcome.exn) "x" =
       check_password (fun _ => "5baa61e4c9b93f3f0682250b6cf8331b7ee68fd8") (fun _ => 0)
        (fun _ => RangeOutcome.ok 200 []) "x") :=
  ⟨Or.inl rfl,
   check_password_range_failure_clean (fun _ => "5baa61e4c9b93f3f0682250b6cf8331b7ee68fd8")
    (fun _ => 0) (fun _ => RangeOutcome.exn) "x" (Or.inl rfl)⟩

/-- Witness for check_phone_omits_phonedb at a concrete remote answer. -/
theorem check_phone_omits_phonedb_witness :
    (∀ b ∈ ({ breaches := [{ name := "Other", title := "Other" }] } : RemoteAnswer).breaches,
        b.name ≠ "PhoneDB_General") ∧
    ((check_phone true { breaches := [{ name := "Other", title := "Other" }] } "+70000000000").breaches =
        (if True ∧ (none : Option String) = none then
          [({ name := "Other", title := "Other" } : BreachInfo)] else []) ∧
     ¬ "PhoneDB_General" ∈ (check_phone true { breaches := [{ name := "Other", title := "Other" }] }
        "+70000000000").breaches.map (fun b => b.name)) := by
  refine ⟨by decide, ?_⟩
  exact check_phone_omits_phonedb true { breaches := [{ name := "Other", title := "Other" }] }
    "+70000000000" (by decide)

/-- notify_new_breach touches only the notification log. -/
theorem notify_new_breach_tables (hasBot : Bool) (sendOk : Nat → String → Bool)
    (s : Store) (user : User) (email : String) (result : LeakCheckResult)
    (old_count : Nat) :
    ((notify_new_breach hasBot sendOk s user email result old_count).1).users = s.users ∧
    ((notify_new_breach hasBot sendOk s user email result old_count).1).monitored = s.monitored := by
  unfold notify_new_breach log_sent
  dsimp only
  split_ifs <;> exact ⟨rfl, rfl⟩

/-- check_single never rewrites the user table. -/
theorem check_single_users (upstream : String → LeakCheckResult) (hasBot : Bool)
    (sendOk : Nat → String → Bool) (now : Nat) (s : Store) (e : MonitoredEmail) :
    ((check_single upstream hasBot sendOk now s e).1).users = s.users := by
  unfold check_single
  cases hf : s.users.find? (fun u => u.id = e.user_id) with
  | none => rfl
  | some user =>
    by_cases ha : user.sub_active
    · simp only [ha, if_true]
      by_cases hg : (upstream e.email).total_breaches > e.last_breach_count
      · rw [if_pos hg]
        exact (notify_new_breach_tables hasBot sendOk _ user e.email _ _).1
      · rw [if_neg hg]
        rfl
    · simp [ha]

/-- check_single preserves the static columns of every monitored row. -/
theorem update_check_result_statics (s : Store) (i n t : Nat) :
    ((update_check_result s i n t).monitored).map statics = s.monitored.map statics := by
  unfold update_check_result
  simp only [List.map_map]
  apply List.map_congr_left
  intro m _
  by_cases h : m.id = i <;> simp [h, statics]

/-- check_single preserves the static columns of every monitored row. -/
theorem check_single_statics (upstream : String → LeakCheckResult) (hasBot : Bool)
    (sendOk : Nat → String → Bool) (now : Nat) (s : Store) (e : MonitoredEmail) :
    ((check_single upstream hasBot sendOk now s e).1).monitored.map statics =
      s.monitored.map statics := by
  unfold check_single
  cases hf : s.users.find? (fun u => u.id = e.user_id) with
  | none => rfl
  | some user =>
    by_cases ha : user.sub_active
    · simp only [ha, if_true]
      by_cases hg : (upstream e.email).total_breaches > e.last_breach_count
      · rw [if_pos hg]
        rw [(notify_new_breach_tables hasBot sendOk _ user e.email _ _).2]
        exact update_check_result_statics s e.id _ now
      · rw [if_neg hg]
        exact update_check_result_statics s e.id _ now
    · simp [ha]

/-- Rows with equal primary key are the same row when the keys are unique. -/
theorem row_eq_of_id_eq {L : List MonitoredEmail}
    (hnodup : (L.map (fun m => m.id)).Nodup) {m1 m2 : MonitoredEmail}
    (h1 : m1 ∈ L) (h2 : m2 ∈ L) (h : m1.id = m2.id) : m1 = m2 :=
  List.inj_on_of_nodup_map hnodup h1 h2 h

/-- Persisting the observed count for a row leaves every row either
untouched or synced with the upstream count of its own email. -/
theorem update_entry_synced (upstream : String → LeakCheckResult) (s : Store)
    (e : MonitoredEmail) (now : Nat)
    (hnodup : (s.monitored.map (fun m => m.id)).Nodup)
    (hme : ∃ me, me ∈ s.monitored ∧ statics me = statics e) :
    ∀ m2 ∈ (update_check_result s e.id (upstream e.email).total_breaches now).monitored,
      ∃ m, m ∈ s.monitored ∧ statics m2 = statics m ∧
        (m2.last_breach_count = m.last_breach_count ∨
         m2.last_breach_count = (upstream m2.email).total_breaches) ∧
        (m2.id = e.id → m2.last_breach_count = (upstream m2.email).total_breaches) := by
  obtain ⟨me, hmem, hstat⟩ := hme
  have hstat' : me.id = e.id ∧ me.user_id = e.user_id ∧ me.email = e.email ∧
      me.is_active = e.is_active := by
    simpa [statics, Prod.ext_iff] using hstat
  intro m2 hm2
  simp only [update_check_result, List.mem_map] at hm2
  obtain ⟨m, hm, hup⟩ := hm2
  by_cases h : m.id = e.id
  · rw [if_pos h] at hup
    have hmme : m = me := row_eq_of_id_eq hnodup hm hmem (h.trans hstat'.1.symm)
    have hemail : m.email = e.email := by rw [hmme]; exact hstat'.2.2.1
    refine ⟨m, hm, ?_, ?_, ?_⟩
    · rw [← hup]; simp [statics]
    · right
      rw [← hup]
      simp [hemail]
    · intro _
      rw [← hup]
      simp [hemail]
  · rw [if_neg h] at hup
    subst hup
    exact ⟨m, hm, rfl, Or.inl rfl, fun hid => absurd hid h⟩

/-- The monitored rows after check_single: each row descends from a row
of the input store, its count either kept or synced; when the row was the
processed one (and the check ran), it ends synced. -/
theorem check_single_counts (upstream : String → LeakCheckResult) (hasBot : Bool)
    (sendOk : Nat → String → Bool) (now : Nat) (s : Store) (e : MonitoredEmail)
    (hnodup : (s.monitored.map (fun m => m.id)).Nodup)
    (hme : ∃ me, me ∈ s.monitored ∧ statics me = statics e) :
    ∀ m2 ∈ ((check_single upstream hasBot sendOk now s e).1).monitored,
      ∃ m, m ∈ s.monitored ∧ statics m2 = statics m ∧
        (m2.last_breach_count = m.last_breach_count ∨
         m2.last_breach_count = (upstream m2.email).total_breaches) := by
  unfold check_single
  cases hf : s.users.find? (fun u => u.id = e.user_id) with
  | none =>
    intro m2 hm2
    exact ⟨m2, hm2, rfl, Or.inl rfl⟩
  | some user =>
    by_cases ha : user.sub_active
    · simp only [ha, if_true]
      by_cases hg : (upstream e.email).total_breaches > e.last_breach_count
      · rw [if_pos hg]
        rw [(notify_new_breach_tables hasBot sendOk _ user e.email _ _).2]
        intro m2 hm2
        obtain ⟨m, hm, h1, h2, _⟩ := update_entry_synced upstream s e now hnodup hme m2 hm2
        exact ⟨m, hm, h1, h2⟩
      · rw [if_neg hg]
        intro m2 hm2
        obtain ⟨m, hm, h1, h2, _⟩ := update_entry_synced upstream s e now hnodup hme m2 hm2
        exact ⟨m, hm, h1, h2⟩
    · simp only [ha, if_false]
      intro m2 hm2
      exact ⟨m2, hm2, rfl, Or.inl rfl⟩

/-- When the subscription check passes, every row carrying the processed
row's id ends the item synced with the upstream count of its email. -/
theorem check_single_processed (upstream : String → LeakCheckResult) (hasBot : Bool)
    (sendOk : Nat → String → Bool) (now : Nat) (s : Store) (e : MonitoredEmail)
    (user : User)
    (hf : s.users.find? (fun u => u.id = e.user_id) = some user)
    (ha : user.sub_active = true)
    (hnodup : (s.monitored.map (fun m => m.id)).Nodup)
    (hme : ∃ me, me ∈ s.monitored ∧ statics me = statics e) :
    ∀ m2 ∈ ((check_single upstream hasBot sendOk now s e).1).monitored,
      m2.id = e.id →
      m2.last_breach_count = (upstream m2.email).total_breaches := by
  unfold check_single
  rw [hf]
  simp only [ha, if_true]
  by_cases hg : (upstream e.email).total_breaches > e.last_breach_count
  · rw [if_pos hg]
    rw [(notify_new_breach_tables hasBot sendOk _ user e.email _ _).2]
    intro m2 hm2 hid
    obtain ⟨m, _, _, _, h4⟩ := update_entry_synced upstream s e now hnodup hme m2 hm2
    exact h4 hid
  · rw [if_neg hg]
    intro m2 hm2 hid
    obtain ⟨m, _, _, _, h4⟩ := update_entry_synced upstream s e now hnodup hme m2 hm2
    exact h4 hid

/-- A processed item whose row is already synced with the upstream count
emits no event. -/
theorem check_single_no_events (upstream : String → LeakCheckResult) (hasBot : Bool)
    (sendOk : Nat → String → Bool) (now : Nat) (s : Store) (e : MonitoredEmail)
    (hsync : ∀ u, s.users.find? (fun x => x.id = e.user_id) = some u →
      u.sub_active = true → e.last_breach_count = (upstream e.email).total_breaches) :
    (check_single upstream hasBot sendOk now s e).2 = [] := by
  unfold check_single
  cases hf : s.users.find? (fun u => u.id = e.user_id) with
  | none => rfl
  | some user =>
    by_cases ha : user.sub_active
    · have hc := hsync user hf ha
      simp only [ha, if_true]
      rw [if_neg (by omega)]
    · simp [ha]

/-- A cycle over rows that are all synced (or skipped) emits no event. -/
theorem runList_no_events (upstream : String → LeakCheckResult) (hasBot : Bool)
    (sendOk : Nat → String → Bool) (now : Nat) (U : List User) :
    ∀ (l : List MonitoredEmail) (s : Store), s.users = U →
    (∀ e ∈ l, ∀ u, U.find? (fun x => x.id = e.user_id) = some u →
      u.sub_active = true →
      e.last_breach_count = (upstream e.email).total_breaches) →
    (runList upstream hasBot sendOk now s l).2 = [] := by
  intro l
  induction l with
  | nil => intro s _ _; rfl
  | cons e rest ih =>
    intro s hU hsync
    have hp : (check_single upstream hasBot sendOk now s e).2 = [] := by
      apply check_single_no_events
      intro u hfind hact
      exact hsync e (List.mem_cons_self e rest) u (by rwa [hU] at hfind) hact
    have hq : (runList upstream hasBot sendOk now
        (check_single upstream hasBot sendOk now s e).1 rest).2 = [] := by
      apply ih
      · rw [check_single_users]
        exact hU
      · intro e' he' u hf ha
        exact hsync e' (List.mem_cons_of_mem e he') u hf ha
    unfold runList
    dsimp only
    rw [hp, hq]
    rfl

/-- Nodup of primary keys transports along equal static columns. -/
theorem nodup_of_statics_eq {A B : List MonitoredEmail}
    (h : A.map statics = B.map statics)
    (hB : (B.map (fun m => m.id)).Nodup) : (A.map (fun m => m.id)).Nodup := by
  have hids : A.map (fun m => m.id) = B.map (fun m => m.id) := by
    have h1 := congrArg (List.map (fun p : Nat × Nat × String × Bool => p.1)) h
    simpa [List.map_map, Function.comp, statics] using h1
  rwa [hids]

/-- Membership of a statically-described row transports along equal
static columns. -/
theorem statics_mem_transport {A B : List MonitoredEmail}
    (h : A.map statics = B.map statics) {e : MonitoredEmail}
    (he : ∃ me, me ∈ B ∧ statics me = statics e) :
    ∃ me, me ∈ A ∧ statics me = statics e := by
  obtain ⟨me, hmem, hst⟩ := he
  have h1 : statics me ∈ B.map statics := List.mem_map_of_mem statics hmem
  rw [← h] at h1
  obtain ⟨me2, hmem2, hst2⟩ := List.mem_map.mp h1
  exact ⟨me2, hmem2, hst2.trans hst⟩

/-- Syncedness transports along equal statics and equal counts. -/
theorem synced_transport (upstream : String → LeakCheckResult)
    {m2 m : MonitoredEmail} (hst : statics m2 = statics m)
    (hcnt : m2.last_breach_count = m.last_breach_count)
    (hs : m.last_breach_count = (upstream m.email).total_breaches) :
    m2.last_breach_count = (upstream m2.email).total_breaches := by
  have he : m2.email = m.email := congrArg (fun p => p.2.2.1) hst
  rw [hcnt, hs, he]

/-- What one pass of the cycle leaves behind: the user table and the
static monitored columns are unchanged, already-synced rows stay synced,
and every row whose owner passed the subscription check during the pass
ends synced with the upstream count of its email. -/
theorem runList_post_synced (upstream : String → LeakCheckResult) (hasBot : Bool)
    (sendOk : Nat → String → Bool) (now : Nat) (U : List User) :
    ∀ (l : List MonitoredEmail) (s : Store), s.users = U →
    (s.monitored.map (fun m => m.id)).Nodup →
    (∀ e ∈ l, ∃ me, me ∈ s.monitored ∧ statics me = statics e) →
    ((runList upstream hasBot sendOk now s l).1.users = U ∧
     (runList upstream hasBot sendOk now s l).1.monitored.map statics =
       s.monitored.map statics ∧
     (∀ m' ∈ (runList upstream hasBot sendOk now s l).1.monitored,
       ∀ m ∈ s.monitored, m'.id = m.id →
       m.last_breach_count = (upstream m.email).total_breaches →
       m'.last_breach_count = (upstream m'.email).total_breaches) ∧
     (∀ e ∈ l, ∀ u, U.find? (fun x => x.id = e.user_id) = some u →
       u.sub_active = true →
       ∀ m' ∈ (runList upstream hasBot sendOk now s l).1.monitored,
       m'.id = e.id →
       m'.last_breach_count = (upstream m'.email).total_breaches)) := by
  intro l
  induction l with
  | nil =>
    intro s hU hnodup _
    refine ⟨hU, rfl, ?_, ?_⟩
    · intro m' hm' m hm hid hs
      have : m' = m := row_eq_of_id_eq hnodup hm' hm hid
      rw [this]
      exact hs
    · intro e he
      exact absurd he (List.not_mem_nil e)
  | cons e rest ih =>
    intro s hU hnodup hcov
    have hme : ∃ me, me ∈ s.monitored ∧ statics me = statics e :=
      hcov e (List.mem_cons_self e rest)
    have hscU : ((check_single upstream hasBot sendOk now s e).1).users = U := by
      rw [check_single_users]; exact hU
    have hscStat := check_single_statics upstream hasBot sendOk now s e
    have hscNodup := nodup_of_statics_eq hscStat hnodup
    have hscCov : ∀ e' ∈ rest, ∃ me, me ∈
        ((check_single upstream hasBot sendOk now s e).1).monitored ∧
        statics me = statics e' := by
      intro e' he'
      exact statics_mem_transport hscStat (hcov e' (List.mem_cons_of_mem e he'))
    obtain ⟨ihU, ihStat, ihPres, ihProc⟩ :=
      ih (check_single upstream hasBot sendOk now s e).1 hscU hscNodup hscCov
    have hstep : ∀ m2 ∈ ((check_single upstream hasBot sendOk now s e).1).monitored,
        ∃ m, m ∈ s.monitored ∧ statics m2 = statics m ∧
          (m2.last_breach_count = m.last_breach_count ∨
           m2.last_breach_count = (upstream m2.email).total_breaches) :=
      check_single_counts upstream hasBot sendOk now s e hnodup hme
    constructor
    · exact ihU
    constructor
    · exact ihStat.trans hscStat
    constructor
    · -- preservation of syncedness across the whole pass
      intro m' hm' m hm hid hs
      have hmem_stat : statics m ∈
          ((check_single upstream hasBot sendOk now s e).1).monitored.map statics := by
        rw [hscStat]
        exact List.mem_map_of_mem statics hm
      obtain ⟨m2, hm2, hm2s⟩ := List.mem_map.mp hmem_stat
      have hm2synced : m2.last_breach_count = (upstream m2.email).total_breaches := by
        obtain ⟨m3, hm3, hst32, hc⟩ := hstep m2 hm2
        have hm3id : m3.id = m.id := by
          have h1 : m2.id = m3.id := congrArg Prod.fst hst32
          have h2 : m2.id = m.id := congrArg Prod.fst hm2s
          rw [← h1, h2]
        have hm3m : m3 = m := row_eq_of_id_eq hnodup hm3 hm hm3id
        rcases hc with hc | hc
        · refine synced_transport upstream hm2s ?_ hs
          rw [hc, hm3m]
        · exact hc
      refine ihPres m' hm' m2 hm2 ?_ hm2synced
      have h2 : m2.id = m.id := congrArg Prod.fst hm2s
      rw [hid, h2]
    · -- rows processed in this pass end synced
      intro e' he' u hfind hact m' hm' hid
      rcases List.mem_cons.mp he' with rfl | he'
      · -- the head item e' = e
        have hf : s.users.find? (fun x => x.id = e'.user_id) = some u := by
          rw [hU]; exact hfind
        have hproc := check_single_processed upstream hasBot sendOk now s e' u hf hact
          hnodup hme
        have hmem_stat : statics m' ∈
            ((check_single upstream hasBot sendOk now s e').1).monitored.map statics := by
          rw [← ihStat]
          exact List.mem_map_of_mem statics hm'
        obtain ⟨m2, hm2, hm2s⟩ := List.mem_map.mp hmem_stat
        have hm2id : m2.id = e'.id := by
          have h1 : m2.id = m'.id := congrArg Prod.fst hm2s
          rw [h1, hid]
        have hm2synced := hproc m2 hm2 hm2id
        exact ihPres m' hm' m2 hm2 (congrArg Prod.fst hm2s).symm hm2synced
      · exact ihProc e' he' u hfind hact m' hm' hid

/-- Rows returned by get_all_active are active rows of the table. -/
theorem mem_of_mem_get_all_active {l : List MonitoredEmail} {e : MonitoredEmail}
    (h : e ∈ get_all_active l) : e ∈ l ∧ e.is_active = true := by
  unfold get_all_active at h
  rw [List.mem_insertionSort] at h
  exact List.mem_filter.mp h

/-- C4: run_cycle is idempotent with respect to notifications — for every
store whose monitored rows have distinct primary keys, running the cycle
twice with unchanged upstream counts sends nothing on the second run:
every processed row's persisted last_breach_count already equals the
observed count, so the strict-increase gate is false everywhere. -/
theorem run_cycle_idempotent (upstream : String → LeakCheckResult) (hasBot : Bool)
    (sendOk : Nat → String → Bool) (now1 now2 : Nat) (s : Store)
    (hnodup : (s.monitored.map (fun m => m.id)).Nodup) :
    (run_cycle upstream hasBot sendOk now2
      (run_cycle upstream hasBot sendOk now1 s).1).2 = [] := by
  obtain ⟨hU1, hStat1, hPres1, hProc1⟩ :=
    runList_post_synced upstream hasBot sendOk now1 s.users
      (get_all_active s.monitored) s rfl hnodup
      (fun e he => ⟨e, (mem_of_mem_get_all_active he).1, rfl⟩)
  unfold run_cycle
  apply runList_no_events upstream hasBot sendOk now2 s.users _ _ hU1
  intro e he u hfind hact
  have he1 := mem_of_mem_get_all_active he
  have hmem_stat : statics e ∈
      (runList upstream hasBot sendOk now1 s (get_all_active s.monitored)).1.monitored.map
        statics := List.mem_map_of_mem statics he1.1
  rw [hStat1] at hmem_stat
  obtain ⟨m, hm, hms⟩ := List.mem_map.mp hmem_stat
  have huid : m.user_id = e.user_id := congrArg (fun p => p.2.1) hms
  have hactm : m.is_active = e.is_active := congrArg (fun p => p.2.2.2) hms
  have hmact : m ∈ get_all_active s.monitored := by
    unfold get_all_active
    rw [List.mem_insertionSort]
    exact List.mem_filter.mpr ⟨hm, hactm.trans he1.2⟩
  exact hProc1 m hmact u (by rwa [huid]) hact e he1.1
    (congrArg Prod.fst hms).symm

/-- Witness for run_cycle_idempotent on the demo store. -/
theorem run_cycle_idempotent_witness :
    (demoStore.monitored.map (fun m => m.id)).Nodup ∧
    (run_cycle (demoUpstream 5) true (fun _ _ => true) 2
      (run_cycle (demoUpstream 5) true (fun _ _ => true) 1 demoStore).1).2 = [] :=
  ⟨by decide,
   run_cycle_idempotent (demoUpstream 5) true (fun _ _ => true) 1 2 demoStore (by decide)⟩

/-- One monitoring item whose gate fires on a fresh fingerprint: check
the subscription, persist the count, attempt exactly one send, and log
the fingerprint exactly when the send succeeded. -/
theorem check_single_fresh_attempt (upstream : String → LeakCheckResult)
    (sendOk : Nat → String → Bool) (now : Nat) (s : Store) (e : MonitoredEmail)
    (user : User)
    (hf : s.users.find? (fun u => u.id = e.user_id) = some user)
    (ha : user.sub_active = true)
    (hgate : e.last_breach_count < (upstream e.email).total_breaches)
    (hfresh : was_sent s user.id "new_breach"
      (contentFingerprint e.email (upstream e.email).total_breaches) = false) :
    (check_single upstream true sendOk now s e).2 =
      [Event.sendAttempt user.telegram_id (itemNotifText e (upstream e.email))] ∧
    (check_single upstream true sendOk now s e).1 =
      (if sendOk user.telegram_id (itemNotifText e (upstream e.email)) then
        log_sent (update_check_result s e.id (upstream e.email).total_breaches now)
          user.id "new_breach" (contentFingerprint e.email (upstream e.email).total_breaches)
       else update_check_result s e.id (upstream e.email).total_breaches now) := by
  have hfresh' : was_sent
      (update_check_result s e.id (upstream e.email).total_breaches now)
      user.id "new_breach"
      (contentFingerprint e.email (upstream e.email).total_breaches) = false := hfresh
  unfold check_single
  rw [hf]
  simp only [ha, if_true]
  rw [if_pos hgate]
  unfold notify_new_breach
  dsimp only
  rw [if_neg (by rw [hfresh']; exact Bool.false_ne_true)]
  simp only [if_true, itemNotifText]
  split_ifs with hsend <;> exact ⟨rfl, rfl⟩

/-- C3 (amended): whenever a check observes new_count > old_count, a
notification send is attempted if and only if no NotificationRecord with
the fingerprint (value, new_count) already exists — earlier decreases of
the count play no role in the gate; on success the fingerprint is logged.
The original claim fails only in that an increase returning exactly to a
previously-notified count is suppressed by that fingerprint (see the
counterexample monitoring_resuppression_cex). -/
theorem monitoring_fresh_increase_notifies (upstream : String → LeakCheckResult)
    (sendOk : Nat → String → Bool) (now : Nat) (s : Store) (e : MonitoredEmail)
    (user : User)
    (hf : s.users.find? (fun u => u.id = e.user_id) = some user)
    (ha : user.sub_active = true)
    (hgate : e.last_breach_count < (upstream e.email).total_breaches)
    (hfresh : was_sent s user.id "new_breach"
      (contentFingerprint e.email (upstream e.email).total_breaches) = false) :
    (check_single upstream true sendOk now s e).2 =
      [Event.sendAttempt user.telegram_id (itemNotifText e (upstream e.email))] ∧
    (sendOk user.telegram_id (itemNotifText e (upstream e.email)) = true →
      (check_single upstream true sendOk now s e).1.notif_log =
        s.notif_log ++
          [⟨user.id, "new_breach",
            contentFingerprint e.email (upstream e.email).total_breaches⟩]) := by
  obtain ⟨h2, h1⟩ := check_single_fresh_attempt upstream sendOk now s e user hf ha hgate hfresh
  refine ⟨h2, fun hs => ?_⟩
  rw [h1, if_pos hs]
  rfl

/-- Witness for monitoring_fresh_increase_notifies on the demo store with
a succeeding send. -/
theorem monitoring_fresh_increase_notifies_witness :
    demoStore.users.find? (fun u => u.id = demoEntry.user_id) = some demoUser ∧
    demoUser.sub_active = true ∧
    demoEntry.last_breach_count < ((demoUpstream 5) demoEntry.email).total_breaches ∧
    was_sent demoStore demoUser.id "new_breach"
      (contentFingerprint demoEntry.email ((demoUpstream 5) demoEntry.email).total_breaches) = false ∧
    (check_single (demoUpstream 5) true (fun _ _ => true) 1 demoStore demoEntry).2 =
      [Event.sendAttempt demoUser.telegram_id
        (itemNotifText demoEntry ((demoUpstream 5) demoEntry.email))] :=
  ⟨by decide, rfl, by decide, by decide,
   (monitoring_fresh_increase_notifies (demoUpstream 5) (fun _ _ => true) 1 demoStore
      demoEntry demoUser (by decide) rfl (by decide) (by decide)).1⟩

/-- C3 (counterexample): the trace 2 -> 5 -> 3 -> 5.  The first cycle
notifies and logs fingerprint a@b.c:5; the second lowers the stored count
to 3; the third observes 5 > 3 — the gate of the claim — yet attempts no
send and logs nothing, because the fingerprint a@b.c:5 already exists:
the deduplication gate suppresses the increase back to an earlier value. -/
theorem monitoring_resuppression_cex :
    (run_cycle (demoUpstream 5) true (fun _ _ => true) 1 demoStore).2.length = 1 ∧
    demoStoreAfter3.monitored.map (fun m => m.last_breach_count) = [3] ∧
    ((demoUpstream 5) "a@b.c").total_breaches = 5 ∧
    (run_cycle (demoUpstream 5) true (fun _ _ => true) 3 demoStoreAfter3).2 = [] ∧
    (run_cycle (demoUpstream 5) true (fun _ _ => true) 3 demoStoreAfter3).1.notif_log =
      demoStoreAfter3.notif_log := by
  decide

/-- C8: in a monitoring item whose gate fires on a fresh fingerprint, if
the send fails then the store keeps its notification log unchanged (the
observed count is still persisted), and exactly one send was attempted —
the cycle performs no retry. -/
theorem notification_logged_only_on_success (upstream : String → LeakCheckResult)
    (sendOk : Nat → String → Bool) (now : Nat) (s : Store) (e : MonitoredEmail)
    (user : User)
    (hf : s.users.find? (fun u => u.id = e.user_id) = some user)
    (ha : user.sub_active = true)
    (hgate : e.last_breach_count < (upstream e.email).total_breaches)
    (hfresh : was_sent s user.id "new_breach"
      (contentFingerprint e.email (upstream e.email).total_breaches) = false)
    (hfail : sendOk user.telegram_id (itemNotifText e (upstream e.email)) = false) :
    (check_single upstream true sendOk now s e).1 =
      update_check_result s e.id (upstream e.email).total_breaches now ∧
    (check_single upstream true sendOk now s e).1.notif_log = s.notif_log ∧
    (check_single upstream true sendOk now s e).2 =
      [Event.sendAttempt user.telegram_id (itemNotifText e (upstream e.email))] := by
  obtain ⟨h2, h1⟩ := check_single_fresh_attempt upstream sendOk now s e user hf ha hgate hfresh
  rw [h1, if_neg (by rw [hfail]; exact Bool.false_ne_true)]
  exact ⟨rfl, rfl, h2⟩

/-- Witness for notification_logged_only_on_success on the demo store
with a failing send. -/
theorem notification_logged_only_on_success_witness :
    demoStore.users.find? (fun u => u.id = demoEntry.user_id) = some demoUser ∧
    demoEntry.last_breach_count < ((demoUpstream 5) demoEntry.email).total_breaches ∧
    (fun _ _ => false) demoUser.telegram_id
      (itemNotifText demoEntry ((demoUpstream 5) demoEntry.email)) = false ∧
    (check_single (demoUpstream 5) true (fun _ _ => false) 1 demoStore demoEntry).1.notif_log =
      demoStore.notif_log ∧
    (check_single (demoUpstream 5) true (fun _ _ => false) 1 demoStore demoEntry).2.length = 1 := by
  have h := notification_logged_only_on_success (demoUpstream 5) (fun _ _ => false) 1
    demoStore demoEntry demoUser (by decide) rfl (by decide) (by decide) rfl
  exact ⟨by decide, by decide, rfl, h.2.1, by rw [h.2.2]; rfl⟩

end DataLeakBot
